import Mathlib

/-!
# xmreg accounts (`src/Account.h`)

A shallow embedding of the `Account` class hierarchy of `src/Account.h`
(`Account`, `EmptyAccount`, `SubaddressAccount`, `PrimaryAccount`), of the lazily
built key bundle `Account::keys`, and of the `account_factory` overloads.

Conventions of the embedding.

* A `unique_ptr<Account>` is an `Option AccountObj`; `nullptr` is `none`.
* A member function that mutates the object returns the new object state.
* A call that may abort or throw returns `Except Failure _`.
* Everything the header only declares (the Monero primitives, the detector of
  `tools.h`, the out-of-line `Account` constructors) is a field of `Env`; every
  theorem quantifies over `Env`.
-/

namespace xmreg

/-! ## Types of the Monero headers -/

/-- Modelled from the spec: `cryptonote::network_type` is declared in the Monero headers,
which are not part of the sources; the spec (§3) lists Main, Test, Stage, Undefined. The
header itself names `STAGENET` and `UNDEFINED`. -/
inductive network_type
  | MAINNET
  | TESTNET
  | STAGENET
  | UNDEFINED
  deriving DecidableEq, Repr

/-- Modelled from the spec: `address_type` is declared in `tools.h`, which is not part
of the sources; the spec (§6) lists Regular, Integrated, Subaddress, Invalid. The header
itself names `REGULAR`, `INTEGRATED` and `SUBADDRESS`. -/
inductive address_type
  | REGULAR
  | INTEGRATED
  | SUBADDRESS
  | INVALID
  deriving DecidableEq, Repr

/-- The type `crypto::public_key`: a block of bytes (32 of them in a well-formed key). -/
structure public_key where
  data : List Nat := List.replicate 32 0
  deriving DecidableEq, Repr

/-- The type `crypto::secret_key`: a block of bytes (32 of them in a well-formed key). -/
structure secret_key where
  data : List Nat := List.replicate 32 0
  deriving DecidableEq, Repr

/-- The type `cryptonote::account_public_address`. -/
structure account_public_address where
  m_spend_public_key : public_key := {}
  m_view_public_key : public_key := {}
  deriving DecidableEq, Repr

/-- Modelled from the spec: `cryptonote::address_parse_info` is declared in the Monero
headers; the spec (§3) gives it the two public keys and the subaddress flag, which are
the members the header reads (`address.m_view_public_key`, `address.m_spend_public_key`,
`is_subaddress`). -/
structure address_parse_info where
  address : account_public_address := {}
  is_subaddress : Bool := false
  deriving DecidableEq, Repr

/-- The type `cryptonote::subaddress_index`: two `uint32_t` members. -/
structure subaddress_index where
  major : Nat
  minor : Nat
  deriving DecidableEq, Repr

/-- The members of `cryptonote::account_keys` that `Account::keys` writes. The bundle
that `account_keys akeys;` declares is the structure with every member at its default. -/
structure account_keys where
  m_account_address : account_public_address := {}
  m_spend_secret_key : secret_key := {}
  m_view_secret_key : secret_key := {}
  deriving DecidableEq, Repr

/-- The two ways a call can fail: a failed `assert`, and a thrown `std::runtime_error`
with its message. -/
inductive Failure
  | assertion_failed
  | runtime_error (what : String)
  deriving DecidableEq, Repr

/-! ## class Account -/

/-- The enum `Account::ADDRESS_TYPE`. -/
inductive ADDRESS_TYPE
  | NONE
  | PRIMARY
  | SUBADDRESS
  deriving DecidableEq, Repr

/-- The protected data members of `Account`, with their default member initialisers.
The structure with every member at its default is what `Account() = default` leaves. -/
structure Account where
  nettype : network_type := network_type.STAGENET
  addr_info : address_parse_info := {}
  viewkey : Option secret_key := none
  spendkey : Option secret_key := none
  subaddr_idx : Option subaddress_index := none
  acc_keys : Option account_keys := none
  deriving DecidableEq, Repr

/-- What the header declares and does not define. -/
structure Env where
  /-- The function `nettype_based_on_address` of `tools.h`. -/
  nettype_based_on_address : String → network_type × address_type
  /-- The function `crypto::check_key`. -/
  check_key : public_key → Bool
  /-- The function `get_account_address_as_str`. -/
  get_account_address_as_str : network_type → Bool → account_public_address → String
  /-- The function `pod_to_hex` at `secret_key`. -/
  sk_to_hex : secret_key → String
  /-- The function `pod_to_hex` at `public_key`. -/
  pk_to_hex : public_key → String
  /-- The function `hex_to_pod` at `secret_key`; `none` is its `false`. -/
  hex_to_pod : String → Option secret_key
  /-- The constructor `Account(network_type, address_parse_info const&, secret_key const&,
  secret_key const&)`, declared at lines 26-29. -/
  Account_ai_vk_sk :
    network_type → address_parse_info → secret_key → secret_key → Except Failure Account
  /-- The constructor `Account(network_type, address_parse_info const&, secret_key const&)`,
  declared at lines 31-33. -/
  Account_ai_vk : network_type → address_parse_info → secret_key → Except Failure Account
  /-- The constructor `Account(network_type, address_parse_info const&)`, declared at
  lines 35-36. -/
  Account_ai : network_type → address_parse_info → Except Failure Account
  /-- The constructor `Account(network_type, string const&, string const&, string const&)`,
  declared at lines 38-41. -/
  Account_str : network_type → String → String → String → Except Failure Account

namespace Account

/-- The member `ai()`. -/
def ai (a : Account) : address_parse_info := a.addr_info

/-- The static member `ai_to_str`. -/
def ai_to_str (E : Env) (addr_info : address_parse_info) (net_type : network_type) : String :=
  E.get_account_address_as_str net_type addr_info.is_subaddress addr_info.address

/-- The member `ai2str()`. -/
def ai2str (E : Env) (a : Account) : String := ai_to_str E a.addr_info a.nettype

/-- The member `vk()`. -/
def vk (a : Account) : Option secret_key := a.viewkey

/-- The member `vk2str()`. -/
def vk2str (E : Env) (a : Account) : String :=
  match a.viewkey with
  | some k => E.sk_to_hex k
  | none => ""

/-- The member `pvk()`. -/
def pvk (a : Account) : public_key := a.addr_info.address.m_view_public_key

/-- The member `pvk2str()`. -/
def pvk2str (E : Env) (a : Account) : String := E.pk_to_hex a.pvk

/-- The member `psk()`. -/
def psk (a : Account) : public_key := a.addr_info.address.m_spend_public_key

/-- The member `psk2str()`. -/
def psk2str (E : Env) (a : Account) : String := E.pk_to_hex a.psk

/-- The member `sk()`. -/
def sk (a : Account) : Option secret_key := a.spendkey

/-- The member `index()`. -/
def index (a : Account) : Option subaddress_index := a.subaddr_idx

/-- The member `keys()`: the returned reference (the value of `acc_keys` after the call)
together with the object after the call. The `assert` on the view key is checked. -/
def keys (a : Account) : Except Failure (Option account_keys × Account) :=
  if a.acc_keys.isNone then
    match a.viewkey with
    | none => Except.error Failure.assertion_failed
    | some viewkey =>
      let akeys : account_keys := {}
      let akeys := { akeys with m_account_address := a.ai.address }
      let akeys := { akeys with m_view_secret_key := viewkey }
      let akeys :=
        match a.spendkey with
        | some spendkey => { akeys with m_spend_secret_key := spendkey }
        | none => akeys
      let a1 := { a with acc_keys := some akeys }
      Except.ok (a1.acc_keys, a1)
  else
    Except.ok (a.acc_keys, a)

/-- The member `set_index`. -/
def set_index (a : Account) (idx : subaddress_index) : Account :=
  { a with subaddr_idx := some idx }

/-- The member `sk2str()`. -/
def sk2str (E : Env) (a : Account) : String :=
  match a.spendkey with
  | some k => E.sk_to_hex k
  | none => ""

/-- The member `nt()`. -/
def nt (a : Account) : network_type := a.nettype

end Account

/-- The arguments a caller forwards to the constructors that take the address as a string:
nothing, a view key, or a view key and a spend key (both as hex strings). -/
inductive StrArgs
  | none
  | vk (viewkey : String)
  | vk_sk (viewkey spendkey : String)
  deriving DecidableEq, Repr

/-- The arguments a caller forwards to the constructors that take a parsed address:
nothing, a view key, or a view key and a spend key. -/
inductive KeyArgs
  | none
  | vk (viewkey : secret_key)
  | vk_sk (viewkey spendkey : secret_key)
  deriving DecidableEq, Repr

/-- The `Account` constructors on `(network_type, string const&, ...)`. The two shorter
ones delegate to the four-argument one with empty strings (lines 43-52). -/
def Account.ofStr (E : Env) (nettype : network_type) (addr : String) :
    StrArgs → Except Failure Account
  | StrArgs.vk_sk viewkey spendkey => E.Account_str nettype addr viewkey spendkey
  | StrArgs.vk viewkey => E.Account_str nettype addr viewkey ""
  | StrArgs.none => E.Account_str nettype addr "" ""

/-- The `Account` constructors on `(network_type, address_parse_info const&, ...)`. -/
def Account.ofInfo (E : Env) (nettype : network_type) (addr_info : address_parse_info) :
    KeyArgs → Except Failure Account
  | KeyArgs.vk_sk viewkey spendkey => E.Account_ai_vk_sk nettype addr_info viewkey spendkey
  | KeyArgs.vk viewkey => E.Account_ai_vk nettype addr_info viewkey
  | KeyArgs.none => E.Account_ai nettype addr_info

/-! ## The registry of a primary account -/

/-- The type `PrimaryAccount::subaddr_map_t`, an `unordered_map` from public spend keys to
subaddress indices: its entries, one per key. -/
abbrev subaddr_map_t := List (public_key × subaddress_index)

/-- The lookup `find` of the map. -/
def subaddr_map_t.find (m : subaddr_map_t) (k : public_key) : Option subaddress_index :=
  match m with
  | [] => none
  | e :: rest => if e.1 = k then some e.2 else subaddr_map_t.find rest k

/-- The statement `m[k] = v`: the entry of `k` is overwritten when there is one, and
added otherwise. -/
def subaddr_map_t.assign (m : subaddr_map_t) (k : public_key) (v : subaddress_index) :
    subaddr_map_t :=
  match m with
  | [] => [(k, v)]
  | e :: rest => if e.1 = k then (k, v) :: rest else e :: subaddr_map_t.assign rest k v

/-! ## The subclasses -/

/-- An object of one of the three concrete classes: the `Account` subobject and, for a
`PrimaryAccount`, the member `subaddresses`. -/
inductive AccountObj
  | EmptyAccount (base : Account)
  | SubaddressAccount (base : Account)
  | PrimaryAccount (base : Account) (subaddresses : subaddr_map_t)
  deriving DecidableEq, Repr

namespace AccountObj

/-- The `Account` subobject. -/
def base : AccountObj → Account
  | EmptyAccount b => b
  | SubaddressAccount b => b
  | PrimaryAccount b _ => b

/-- The virtual member `type()`. -/
def type : AccountObj → ADDRESS_TYPE
  | EmptyAccount _ => ADDRESS_TYPE.NONE
  | SubaddressAccount _ => ADDRESS_TYPE.SUBADDRESS
  | PrimaryAccount _ _ => ADDRESS_TYPE.PRIMARY

/-- The member `is_subaddress()`. -/
def is_subaddress (a : AccountObj) : Bool := decide (a.type = ADDRESS_TYPE.SUBADDRESS)

/-- The conversion `explicit operator bool()`. -/
def toBool (a : AccountObj) : Bool := decide (a.type ≠ ADDRESS_TYPE.NONE)

/-- The entries of the registry; only a `PrimaryAccount` has one. -/
def registry : AccountObj → Option subaddr_map_t
  | PrimaryAccount _ m => some m
  | _ => none

/-- The member `set_index` through the base class. -/
def set_index (a : AccountObj) (idx : subaddress_index) : AccountObj :=
  match a with
  | EmptyAccount b => EmptyAccount (b.set_index idx)
  | SubaddressAccount b => SubaddressAccount (b.set_index idx)
  | PrimaryAccount b m => PrimaryAccount (b.set_index idx) m

/-- The member `keys()` through the base class. -/
def keys (a : AccountObj) : Except Failure (Option account_keys × AccountObj) :=
  match a with
  | EmptyAccount b => (b.keys).map (fun r => (r.1, EmptyAccount r.2))
  | SubaddressAccount b => (b.keys).map (fun r => (r.1, SubaddressAccount r.2))
  | PrimaryAccount b m => (b.keys).map (fun r => (r.1, PrimaryAccount r.2 m))

end AccountObj

/-- The body of the constructor `PrimaryAccount(T&&... args)` once the `Account`
constructor has returned `b`: the index becomes `(0, 0)` and the account's own public
spend key is registered under it in the map, which starts empty. -/
def PrimaryAccount.init (b : Account) : AccountObj :=
  let b1 := { b with subaddr_idx := some (subaddress_index.mk 0 0) }
  AccountObj.PrimaryAccount b1
    (subaddr_map_t.assign [] b1.psk ((b1.subaddr_idx).getD (subaddress_index.mk 0 0)))

/-- The constructor `PrimaryAccount(T&&... args)`, given the outcome of the forwarded
`Account` constructor; a failure of that constructor propagates. -/
def PrimaryAccount.ctor (baseCtor : Except Failure Account) : Except Failure AccountObj :=
  baseCtor.map PrimaryAccount.init

/-- The inherited constructors of `SubaddressAccount`. -/
def SubaddressAccount.ctor (baseCtor : Except Failure Account) : Except Failure AccountObj :=
  baseCtor.map AccountObj.SubaddressAccount

/-- The default constructor of `EmptyAccount`. -/
def EmptyAccount.default : AccountObj := AccountObj.EmptyAccount {}

/-! ## account_factory -/

/-- The argument lists of the four `account_factory` overloads. -/
inductive FactoryArgs
  | nil
  | str (addr_str : String) (args : StrArgs)
  | info (net_type : network_type) (addr_info : address_parse_info) (args : KeyArgs)
  | idx (idx : subaddress_index) (args : FactoryArgs)
  deriving Repr

/-- The four overloads of `account_factory` (lines 230-293). -/
def account_factory (E : Env) : FactoryArgs → Except Failure (Option AccountObj)
  | FactoryArgs.nil => Except.ok (some EmptyAccount.default)
  | FactoryArgs.str addr_str args =>
    let net_and_addr_type := E.nettype_based_on_address addr_str
    if net_and_addr_type.1 = network_type.UNDEFINED then
      Except.ok none
    else if net_and_addr_type.2 = address_type.SUBADDRESS then
      (SubaddressAccount.ctor (Account.ofStr E net_and_addr_type.1 addr_str args)).map some
    else if net_and_addr_type.2 = address_type.REGULAR
        ∨ net_and_addr_type.2 = address_type.INTEGRATED then
      (PrimaryAccount.ctor (Account.ofStr E net_and_addr_type.1 addr_str args)).map some
    else
      Except.ok none
  | FactoryArgs.info net_type addr_info args =>
    if !E.check_key addr_info.address.m_view_public_key
        || !E.check_key addr_info.address.m_spend_public_key then
      Except.ok none
    else if addr_info.is_subaddress then
      (SubaddressAccount.ctor (Account.ofInfo E net_type addr_info args)).map some
    else
      (PrimaryAccount.ctor (Account.ofInfo E net_type addr_info args)).map some
  | FactoryArgs.idx idx args =>
    match account_factory E args with
    | Except.error e => Except.error e
    | Except.ok none => Except.ok none
    | Except.ok (some acc) =>
      if acc.is_subaddress then
        Except.ok (some (acc.set_index idx))
      else
        Except.ok (some acc)

/-! ## parse_secret_key -/

/-- The static member `Account::parse_secret_key` (lines 298-307): the key `hex_to_pod`
decodes, or a thrown `std::runtime_error` when `hex_to_pod` returns `false`. -/
def Account.parse_secret_key (E : Env) (sk : String) : Except Failure secret_key :=
  match E.hex_to_pod sk with
  | none => Except.error (Failure.runtime_error ("Cant parse secret key: " ++ sk))
  | some k => Except.ok k

/-! ## Populating the registry -/

/-- Modelled from the spec: `PrimaryAccount::add_subaddress_index` is declared at lines
206-207 and defined outside the header. By §4.3 (`registerIndex`) it computes only the
public spend key for `(acc_id, addr_id)`, with the external derivation function of §6
(`derive`, on the view secret, the index and the base public spend key), stores it in the
registry under that index, and returns the stored entry. The result is the entry and the
registry after the call. -/
def PrimaryAccount.add_subaddress_index
    (derive : secret_key → subaddress_index → public_key → public_key)
    (viewSecret : secret_key) (basePublicSpendKey : public_key)
    (subaddresses : subaddr_map_t) (acc_id addr_id : Nat) :
    (public_key × subaddress_index) × subaddr_map_t :=
  let idx := subaddress_index.mk acc_id addr_id
  let key := derive viewSecret idx basePublicSpendKey
  ((key, idx), subaddresses.assign key idx)

/-- Modelled from the spec: `PrimaryAccount::populate_subaddress_indices` is declared at
line 215 and defined outside the header. By §4.3 (`populateIndices`) it calls
`registerIndex` for every `accountId` in `[0, maxAccountId)` and every `addressId` in
`[0, maxAddressId)`. The result is the registry after the call. -/
def PrimaryAccount.populateIndices
    (derive : secret_key → subaddress_index → public_key → public_key)
    (viewSecret : secret_key) (basePublicSpendKey : public_key)
    (subaddresses : subaddr_map_t) (maxAccountId maxAddressId : Nat) : subaddr_map_t :=
  (List.range maxAccountId).foldl
    (fun m acc_id =>
      (List.range maxAddressId).foldl
        (fun m addr_id =>
          (PrimaryAccount.add_subaddress_index derive viewSecret basePublicSpendKey
            m acc_id addr_id).2)
        m)
    subaddresses

/-- The entry point as the header declares it (line 215): one parameter `last_acc_id`,
which is 50 when the caller gives none, and, by the comment at lines 209-213, 200
subaddresses for each account. -/
def PrimaryAccount.populate_subaddress_indices
    (derive : secret_key → subaddress_index → public_key → public_key)
    (viewSecret : secret_key) (basePublicSpendKey : public_key)
    (subaddresses : subaddr_map_t) (last_acc_id : Option Nat) : subaddr_map_t :=
  PrimaryAccount.populateIndices derive viewSecret basePublicSpendKey subaddresses
    (last_acc_id.getD 50) 200

/-- The indices `populateIndices` registers, in the order of the two loops. -/
def PrimaryAccount.populateOrder (maxAccountId maxAddressId : Nat) : List subaddress_index :=
  (List.range maxAccountId).flatMap
    (fun acc_id => (List.range maxAddressId).map (fun addr_id => subaddress_index.mk acc_id addr_id))

/-! ## Shapes of factory argument lists -/

/-- Whether an argument list is, below any number of leading subaddress indices, the
empty argument list of `account_factory()`. -/
def FactoryArgs.endsInNil : FactoryArgs → Bool
  | FactoryArgs.nil => true
  | FactoryArgs.idx _ args => args.endsInNil
  | FactoryArgs.str _ _ => false
  | FactoryArgs.info _ _ _ => false

/-! ## A test double of the collaborators -/

/-- Two hex digits per byte. -/
def hexOfBytes (bytes : List Nat) : String :=
  let digit := fun (n : Nat) => (Nat.toDigits 16 (n % 16)).headD '0'
  String.mk (bytes.flatMap (fun b => [digit (b / 16), digit b]))

/-- A test double of the collaborators. The detector looks at the first character only
(`4` regular and `8` subaddress on mainnet, `9` regular, `A` integrated and `B` subaddress on
testnet, `?` a mainnet string of no known kind, anything else undefined); a public key is
well formed when it has 32 bytes; the string constructor rejects an address of fewer than
two characters and otherwise stores the character codes of its arguments; the other
constructors store their arguments. -/
def testEnv : Env where
  nettype_based_on_address := fun s =>
    match s.data with
    | '4' :: _ => (network_type.MAINNET, address_type.REGULAR)
    | '8' :: _ => (network_type.MAINNET, address_type.SUBADDRESS)
    | '9' :: _ => (network_type.TESTNET, address_type.REGULAR)
    | 'A' :: _ => (network_type.TESTNET, address_type.INTEGRATED)
    | 'B' :: _ => (network_type.TESTNET, address_type.SUBADDRESS)
    | '?' :: _ => (network_type.MAINNET, address_type.INVALID)
    | _ => (network_type.UNDEFINED, address_type.INVALID)
  check_key := fun k => decide (k.data.length = 32)
  get_account_address_as_str := fun _ is_subaddress address =>
    (if is_subaddress then "8" else "4")
      ++ hexOfBytes (address.m_spend_public_key.data ++ address.m_view_public_key.data)
  sk_to_hex := fun k => hexOfBytes k.data
  pk_to_hex := fun k => hexOfBytes k.data
  hex_to_pod := fun s =>
    if s.data.length = 64 then some (secret_key.mk (s.data.map Char.toNat)) else none
  Account_ai_vk_sk := fun nettype addr_info viewkey spendkey =>
    Except.ok { nettype := nettype, addr_info := addr_info,
                viewkey := some viewkey, spendkey := some spendkey }
  Account_ai_vk := fun nettype addr_info viewkey =>
    Except.ok { nettype := nettype, addr_info := addr_info, viewkey := some viewkey }
  Account_ai := fun nettype addr_info =>
    Except.ok { nettype := nettype, addr_info := addr_info }
  Account_str := fun nettype addr viewkey spendkey =>
    match addr.data with
    | c :: _ :: _ =>
      Except.ok
        { nettype := nettype,
          addr_info :=
            { address := { m_spend_public_key := public_key.mk (addr.data.map Char.toNat) },
              is_subaddress := decide (c = '8' ∨ c = 'B') },
          viewkey :=
            if viewkey.data = [] then none
            else some (secret_key.mk (viewkey.data.map Char.toNat)),
          spendkey :=
            if spendkey.data = [] then none
            else some (secret_key.mk (spendkey.data.map Char.toNat)) }
    | _ => Except.error (Failure.runtime_error "Cant parse address")

/-- A well-formed public key of the test double: 32 bytes, all equal to `b`. -/
def testKey (b : Nat) : public_key := public_key.mk (List.replicate 32 b)

/-- A parsed address with well-formed keys. -/
def testInfo (is_subaddress : Bool) : address_parse_info :=
  { address := { m_spend_public_key := testKey 2, m_view_public_key := testKey 1 },
    is_subaddress := is_subaddress }

/-- The `Account` subobject the string constructor of the test double builds from the
mainnet address `4A` with no secrets. -/
def testBase4A : Account :=
  { nettype := network_type.MAINNET,
    addr_info := { address := { m_spend_public_key := public_key.mk [52, 65] } } }

/-- The `Account` subobject the string constructor of the test double builds from the
mainnet subaddress `8A` with no secrets. -/
def testBase8A : Account :=
  { nettype := network_type.MAINNET,
    addr_info := { address := { m_spend_public_key := public_key.mk [56, 65] },
                   is_subaddress := true } }

/-- An account that holds a view key and a spend key and no cached bundle. -/
def testFull : Account :=
  { nettype := network_type.TESTNET, addr_info := testInfo false,
    viewkey := some (secret_key.mk (List.replicate 32 5)),
    spendkey := some (secret_key.mk (List.replicate 32 6)) }

/-- A view-only account: a view key, no spend key, no cached bundle. -/
def testViewOnly : Account :=
  { nettype := network_type.TESTNET, addr_info := testInfo false,
    viewkey := some (secret_key.mk (List.replicate 32 5)) }

/-- A test double of the derivation function: the two index components followed by the
bytes of the view secret and of the base public spend key. -/
def testDerive (viewSecret : secret_key) (idx : subaddress_index)
    (basePublicSpendKey : public_key) : public_key :=
  public_key.mk (idx.major :: idx.minor :: (viewSecret.data ++ basePublicSpendKey.data))

/-- A short view secret for the test double. -/
def testViewSecret : secret_key := secret_key.mk [5]

/-- A short public spend key for the test double. -/
def testSpendKey : public_key := public_key.mk [9]

/-! ## Lemmas on the factory -/

/-- The result of a mapped constructor call is a success exactly when the call is. -/
theorem except_map_eq_ok {α β : Type} (f : α → β) (c : Except Failure α) (y : β)
    (h : c.map f = Except.ok y) : ∃ x, c = Except.ok x ∧ f x = y := by
  cases c with
  | error e => simp [Except.map] at h
  | ok x =>
    simp only [Except.map, Except.ok.injEq] at h
    exact ⟨x, rfl, h⟩

/-- A freshly initialised primary account has index `(0, 0)` and the one registry entry
of its own public spend key. -/
theorem PrimaryAccount.init_spec (b : Account) :
    (PrimaryAccount.init b).type = ADDRESS_TYPE.PRIMARY
      ∧ (PrimaryAccount.init b).base.index = some (subaddress_index.mk 0 0)
      ∧ (PrimaryAccount.init b).registry
          = some [((PrimaryAccount.init b).base.psk, subaddress_index.mk 0 0)] := by
  refine ⟨rfl, rfl, rfl⟩

/-- Every object the factory returns with type `PRIMARY` is a freshly initialised
`PrimaryAccount`: the index-stamping overload leaves it alone. -/
theorem account_factory_primary (E : Env) (fa : FactoryArgs) :
    ∀ a : AccountObj, account_factory E fa = Except.ok (some a) →
      a.type = ADDRESS_TYPE.PRIMARY → ∃ b : Account, a = PrimaryAccount.init b := by
  induction fa with
  | nil =>
    intro a h ht
    simp only [account_factory, Except.ok.injEq, Option.some.injEq] at h
    subst h
    simp [EmptyAccount.default, AccountObj.type] at ht
  | str addr_str args =>
    intro a h ht
    simp only [account_factory] at h
    split_ifs at h with h1 h2 h3
    · simp at h
    · obtain ⟨x, hx, hxa⟩ := except_map_eq_ok _ _ _ h
      obtain ⟨b, _, hb⟩ := except_map_eq_ok _ _ _ hx
      simp only [Option.some.injEq] at hxa
      subst hxa
      subst hb
      simp [AccountObj.type] at ht
    · obtain ⟨x, hx, hxa⟩ := except_map_eq_ok _ _ _ h
      obtain ⟨b, _, hb⟩ := except_map_eq_ok _ _ _ hx
      simp only [Option.some.injEq] at hxa
      exact ⟨b, by rw [← hxa, ← hb]⟩
    · simp at h
  | info net_type addr_info args =>
    intro a h ht
    simp only [account_factory] at h
    split_ifs at h with h1 h2
    · simp at h
    · obtain ⟨x, hx, hxa⟩ := except_map_eq_ok _ _ _ h
      obtain ⟨b, _, hb⟩ := except_map_eq_ok _ _ _ hx
      simp only [Option.some.injEq] at hxa
      subst hxa
      subst hb
      simp [AccountObj.type] at ht
    · obtain ⟨x, hx, hxa⟩ := except_map_eq_ok _ _ _ h
      obtain ⟨b, _, hb⟩ := except_map_eq_ok _ _ _ hx
      simp only [Option.some.injEq] at hxa
      exact ⟨b, by rw [← hxa, ← hb]⟩
  | idx idx args ih =>
    intro a h ht
    simp only [account_factory] at h
    cases hr : account_factory E args with
    | error e => simp [hr] at h
    | ok o =>
      cases o with
      | none => simp [hr] at h
      | some acc =>
        simp only [hr] at h
        split_ifs at h with hs
        · simp only [Except.ok.injEq, Option.some.injEq] at h
          subst h
          have hsub : acc.type = ADDRESS_TYPE.SUBADDRESS := by
            simpa [AccountObj.is_subaddress] using hs
          cases acc <;> simp [AccountObj.type, AccountObj.set_index] at hsub ht
        · simp only [Except.ok.injEq, Option.some.injEq] at h
          subst h
          exact ih acc hr ht

/-! ## The constructor of PrimaryAccount -/

/-- C1: every freshly constructed `PrimaryAccount`, whatever the forwarded `Account`
constructor leaves in the base subobject, and so every account of type `PRIMARY` that
`account_factory` returns, has index `(0, 0)` and a registry with exactly one entry, which
maps the account's own public spend key `psk()` to `(0, 0)`. -/
theorem primary_account_fresh (E : Env) (baseCtor : Except Failure Account)
    (fa : FactoryArgs) (a : AccountObj)
    (h : PrimaryAccount.ctor baseCtor = Except.ok a
      ∨ (account_factory E fa = Except.ok (some a) ∧ a.type = ADDRESS_TYPE.PRIMARY)) :
    a.type = ADDRESS_TYPE.PRIMARY
      ∧ a.base.index = some (subaddress_index.mk 0 0)
      ∧ a.registry = some [(a.base.psk, subaddress_index.mk 0 0)]
      ∧ (∀ m, a.registry = some m →
          m.length = 1 ∧ m.find a.base.psk = some (subaddress_index.mk 0 0)) := by
  have key : ∃ b : Account, a = PrimaryAccount.init b := by
    rcases h with h | ⟨h, ht⟩
    · obtain ⟨b, _, hb⟩ := except_map_eq_ok _ _ _ h
      exact ⟨b, hb.symm⟩
    · exact account_factory_primary E fa a h ht
  obtain ⟨b, rfl⟩ := key
  refine ⟨rfl, rfl, rfl, ?_⟩
  intro m hm
  have hm1 : m = [((PrimaryAccount.init b).base.psk, subaddress_index.mk 0 0)] := by
    have := (PrimaryAccount.init_spec b).2.2
    rw [hm] at this
    exact Option.some.inj this
  subst hm1
  exact ⟨rfl, by simp [subaddr_map_t.find]⟩

/-- C1 at the mainnet address `4A` of the test double, and at a constructor call on
a base subobject with every member at its default. -/
theorem primary_account_fresh_witness :
    (account_factory testEnv (FactoryArgs.str "4A" StrArgs.none)
        = Except.ok (some (PrimaryAccount.init testBase4A))
      ∧ (PrimaryAccount.init testBase4A).type = ADDRESS_TYPE.PRIMARY)
    ∧ (PrimaryAccount.init testBase4A).base.index = some (subaddress_index.mk 0 0)
    ∧ (PrimaryAccount.init testBase4A).registry
        = some [(public_key.mk [52, 65], subaddress_index.mk 0 0)]
    ∧ (PrimaryAccount.init {}).registry
        = some [((PrimaryAccount.init {}).base.psk, subaddress_index.mk 0 0)] :=
  ⟨⟨rfl, rfl⟩,
    (primary_account_fresh testEnv (Except.ok {}) (FactoryArgs.str "4A" StrArgs.none)
      (PrimaryAccount.init testBase4A) (Or.inr ⟨rfl, rfl⟩)).2.1,
    (primary_account_fresh testEnv (Except.ok {}) (FactoryArgs.str "4A" StrArgs.none)
      (PrimaryAccount.init testBase4A) (Or.inr ⟨rfl, rfl⟩)).2.2.1,
    (primary_account_fresh testEnv (Except.ok {}) FactoryArgs.nil
      (PrimaryAccount.init {}) (Or.inl rfl)).2.2.1⟩

/-! ## account_factory on an address string -/

/-- C2, as the code has it: when the detector reports network type `UNDEFINED`, or a kind
that is none of `SUBADDRESS`, `REGULAR`, `INTEGRATED`, `account_factory(addr_str, ...)`
returns `nullptr`: no `Account` object at all. It calls no constructor and does not
throw. -/
theorem account_factory_str_null (E : Env) (addr_str : String) (args : StrArgs)
    (h : (E.nettype_based_on_address addr_str).1 = network_type.UNDEFINED
      ∨ ((E.nettype_based_on_address addr_str).2 ≠ address_type.SUBADDRESS
          ∧ (E.nettype_based_on_address addr_str).2 ≠ address_type.REGULAR
          ∧ (E.nettype_based_on_address addr_str).2 ≠ address_type.INTEGRATED)) :
    account_factory E (FactoryArgs.str addr_str args) = Except.ok none := by
  simp only [account_factory]
  rcases h with h | ⟨h1, h2, h3⟩
  · simp [h]
  · simp [h1, h2, h3]

/-- C2 at the empty string (network `UNDEFINED`) and at the string `?x` (mainnet, kind
`INVALID`) of the test double. -/
theorem account_factory_str_null_witness :
    (testEnv.nettype_based_on_address "").1 = network_type.UNDEFINED
      ∧ account_factory testEnv (FactoryArgs.str "" (StrArgs.vk "ab")) = Except.ok none
      ∧ (testEnv.nettype_based_on_address "?x").2 = address_type.INVALID
      ∧ account_factory testEnv (FactoryArgs.str "?x" StrArgs.none) = Except.ok none :=
  ⟨rfl,
    account_factory_str_null testEnv "" (StrArgs.vk "ab") (Or.inl rfl),
    rfl,
    account_factory_str_null testEnv "?x" StrArgs.none
      (Or.inr ⟨by decide, by decide, by decide⟩)⟩

/-- C2 as stated fails: on a string of undefined network type, and on a string of no
known kind, the factory returns no object, so in particular no object of type `NONE`. -/
theorem account_factory_str_not_empty_account :
    (testEnv.nettype_based_on_address "").1 = network_type.UNDEFINED
      ∧ (¬ ∃ a : AccountObj,
          account_factory testEnv (FactoryArgs.str "" StrArgs.none) = Except.ok (some a)
            ∧ a.type = ADDRESS_TYPE.NONE)
      ∧ (testEnv.nettype_based_on_address "?x").1 = network_type.MAINNET
      ∧ (testEnv.nettype_based_on_address "?x").2 = address_type.INVALID
      ∧ ¬ ∃ a : AccountObj,
          account_factory testEnv (FactoryArgs.str "?x" StrArgs.none) = Except.ok (some a)
            ∧ a.type = ADDRESS_TYPE.NONE := by
  have h1 : account_factory testEnv (FactoryArgs.str "" StrArgs.none) = Except.ok none := rfl
  have h2 : account_factory testEnv (FactoryArgs.str "?x" StrArgs.none) = Except.ok none := rfl
  refine ⟨rfl, ?_, rfl, rfl, ?_⟩
  · rintro ⟨a, ha, _⟩
    rw [h1] at ha
    simp at ha
  · rintro ⟨a, ha, _⟩
    rw [h2] at ha
    simp at ha

/-- C4: when the detected network type is not `UNDEFINED`, the factory forwards the
detected network type, the address string and the remaining arguments to the constructor
of `SubaddressAccount` for kind `SUBADDRESS` and to the constructor of `PrimaryAccount`
for kind `REGULAR` or `INTEGRATED`. It returns the constructed object, of type `SUBADDRESS`
and `PRIMARY` respectively, whenever the `Account` constructor completes, and passes the
constructor's failure on when it throws. -/
theorem account_factory_str_dispatch (E : Env) (addr_str : String) (args : StrArgs)
    (h : (E.nettype_based_on_address addr_str).1 ≠ network_type.UNDEFINED) :
    ((E.nettype_based_on_address addr_str).2 = address_type.SUBADDRESS →
        (∀ b, Account.ofStr E (E.nettype_based_on_address addr_str).1 addr_str args
              = Except.ok b →
            account_factory E (FactoryArgs.str addr_str args)
                = Except.ok (some (AccountObj.SubaddressAccount b))
              ∧ (AccountObj.SubaddressAccount b).type = ADDRESS_TYPE.SUBADDRESS)
        ∧ (∀ e, Account.ofStr E (E.nettype_based_on_address addr_str).1 addr_str args
              = Except.error e →
            account_factory E (FactoryArgs.str addr_str args) = Except.error e))
    ∧ ((E.nettype_based_on_address addr_str).2 = address_type.REGULAR
          ∨ (E.nettype_based_on_address addr_str).2 = address_type.INTEGRATED →
        (∀ b, Account.ofStr E (E.nettype_based_on_address addr_str).1 addr_str args
              = Except.ok b →
            account_factory E (FactoryArgs.str addr_str args)
                = Except.ok (some (PrimaryAccount.init b))
              ∧ (PrimaryAccount.init b).type = ADDRESS_TYPE.PRIMARY)
        ∧ (∀ e, Account.ofStr E (E.nettype_based_on_address addr_str).1 addr_str args
              = Except.error e →
            account_factory E (FactoryArgs.str addr_str args) = Except.error e)) := by
  refine ⟨fun hk => ⟨fun b hb => ⟨?_, rfl⟩, fun e he => ?_⟩,
    fun hk => ⟨fun b hb => ⟨?_, rfl⟩, fun e he => ?_⟩⟩
  · simp [account_factory, h, hk, hb, SubaddressAccount.ctor, Except.map]
  · simp [account_factory, h, hk, he, SubaddressAccount.ctor, Except.map]
  · have hns : (E.nettype_based_on_address addr_str).2 ≠ address_type.SUBADDRESS := by
      rcases hk with hk | hk <;> simp [hk]
    simp [account_factory, h, hns, hk, hb, PrimaryAccount.ctor, Except.map]
  · have hns : (E.nettype_based_on_address addr_str).2 ≠ address_type.SUBADDRESS := by
      rcases hk with hk | hk <;> simp [hk]
    simp [account_factory, h, hns, hk, he, PrimaryAccount.ctor, Except.map]

/-- C4 at the strings `8A` (mainnet subaddress), `4A` (mainnet regular) and `AA` (testnet
integrated) of the test double. -/
theorem account_factory_str_dispatch_witness :
    (testEnv.nettype_based_on_address "8A") = (network_type.MAINNET, address_type.SUBADDRESS)
      ∧ account_factory testEnv (FactoryArgs.str "8A" StrArgs.none)
          = Except.ok (some (AccountObj.SubaddressAccount testBase8A))
      ∧ (testEnv.nettype_based_on_address "4A") = (network_type.MAINNET, address_type.REGULAR)
      ∧ account_factory testEnv (FactoryArgs.str "4A" StrArgs.none)
          = Except.ok (some (PrimaryAccount.init testBase4A))
      ∧ (testEnv.nettype_based_on_address "AA")
          = (network_type.TESTNET, address_type.INTEGRATED)
      ∧ (∃ a, account_factory testEnv (FactoryArgs.str "AA" StrArgs.none)
          = Except.ok (some a) ∧ a.type = ADDRESS_TYPE.PRIMARY
            ∧ a.base.nettype = network_type.TESTNET) :=
  ⟨rfl,
    (((account_factory_str_dispatch testEnv "8A" StrArgs.none (by decide)).1 rfl).1
      testBase8A rfl).1,
    rfl,
    (((account_factory_str_dispatch testEnv "4A" StrArgs.none (by decide)).2
      (Or.inl rfl)).1 testBase4A rfl).1,
    rfl,
    ⟨_, (((account_factory_str_dispatch testEnv "AA" StrArgs.none (by decide)).2
      (Or.inr rfl)).1 _ rfl).1, rfl, rfl⟩⟩

/-! ## account_factory on a parsed address -/

/-- C3, as the code has it: when the public view key or the public spend key fails
`check_key`, `account_factory(net_type, addr_info, ...)` returns `nullptr`: no `Account`
object at all. It calls no constructor and does not throw. -/
theorem account_factory_info_null (E : Env) (net_type : network_type)
    (addr_info : address_parse_info) (args : KeyArgs)
    (h : E.check_key addr_info.address.m_view_public_key = false
      ∨ E.check_key addr_info.address.m_spend_public_key = false) :
    account_factory E (FactoryArgs.info net_type addr_info args) = Except.ok none := by
  simp only [account_factory]
  rcases h with h | h <;> simp [h]

/-- C3 at a parsed address whose view key has no bytes, and at one whose spend key has
31 bytes. -/
theorem account_factory_info_null_witness :
    testEnv.check_key (public_key.mk []) = false
      ∧ account_factory testEnv (FactoryArgs.info network_type.MAINNET
            { address := { m_spend_public_key := testKey 2,
                           m_view_public_key := public_key.mk [] } } KeyArgs.none)
          = Except.ok none
      ∧ testEnv.check_key (public_key.mk (List.replicate 31 7)) = false
      ∧ account_factory testEnv (FactoryArgs.info network_type.TESTNET
            { address := { m_spend_public_key := public_key.mk (List.replicate 31 7),
                           m_view_public_key := testKey 1 },
              is_subaddress := true } (KeyArgs.vk {}))
          = Except.ok none :=
  ⟨rfl, account_factory_info_null testEnv _ _ _ (Or.inl rfl),
    rfl, account_factory_info_null testEnv _ _ _ (Or.inr rfl)⟩

/-- C3 as stated fails: on a parsed address whose view key is malformed the factory
returns no object, so in particular no object of type `NONE`. -/
theorem account_factory_info_not_empty_account :
    testEnv.check_key (public_key.mk []) = false
      ∧ ¬ ∃ a : AccountObj,
          account_factory testEnv (FactoryArgs.info network_type.MAINNET
              { address := { m_spend_public_key := testKey 2,
                             m_view_public_key := public_key.mk [] } } KeyArgs.none)
            = Except.ok (some a)
            ∧ a.type = ADDRESS_TYPE.NONE := by
  have h1 : account_factory testEnv (FactoryArgs.info network_type.MAINNET
      { address := { m_spend_public_key := testKey 2,
                     m_view_public_key := public_key.mk [] } } KeyArgs.none)
      = Except.ok none := rfl
  refine ⟨rfl, ?_⟩
  rintro ⟨a, ha, _⟩
  rw [h1] at ha
  simp at ha

/-- C5: when both public keys pass `check_key`, the factory forwards the network type,
the parsed address and the remaining arguments to the constructor of `SubaddressAccount`
if `is_subaddress` is set and to the constructor of `PrimaryAccount` otherwise. It
returns an object whenever the `Account` constructor completes; every handle it returns is
non-null, of type `SUBADDRESS` if and only if `is_subaddress` is set, of type `PRIMARY`
otherwise, and never of type `NONE`. -/
theorem account_factory_info_dispatch (E : Env) (net_type : network_type)
    (addr_info : address_parse_info) (args : KeyArgs)
    (hv : E.check_key addr_info.address.m_view_public_key = true)
    (hs : E.check_key addr_info.address.m_spend_public_key = true) :
    (∀ b, Account.ofInfo E net_type addr_info args = Except.ok b →
        account_factory E (FactoryArgs.info net_type addr_info args)
          = Except.ok (some (if addr_info.is_subaddress then AccountObj.SubaddressAccount b
                             else PrimaryAccount.init b)))
    ∧ (∀ e, Account.ofInfo E net_type addr_info args = Except.error e →
        account_factory E (FactoryArgs.info net_type addr_info args) = Except.error e)
    ∧ (∀ r, account_factory E (FactoryArgs.info net_type addr_info args) = Except.ok r →
        ∃ a, r = some a
          ∧ (a.type = ADDRESS_TYPE.SUBADDRESS ↔ addr_info.is_subaddress = true)
          ∧ (a.type = ADDRESS_TYPE.PRIMARY ↔ addr_info.is_subaddress = false)
          ∧ a.type ≠ ADDRESS_TYPE.NONE) := by
  have hb : ∀ b, Account.ofInfo E net_type addr_info args = Except.ok b →
      account_factory E (FactoryArgs.info net_type addr_info args)
        = Except.ok (some (if addr_info.is_subaddress then AccountObj.SubaddressAccount b
                           else PrimaryAccount.init b)) := by
    intro b hb
    cases hsub : addr_info.is_subaddress <;>
      simp [account_factory, hv, hs, hsub, hb, SubaddressAccount.ctor, PrimaryAccount.ctor,
        Except.map]
  have he : ∀ e, Account.ofInfo E net_type addr_info args = Except.error e →
      account_factory E (FactoryArgs.info net_type addr_info args) = Except.error e := by
    intro e he
    cases hsub : addr_info.is_subaddress <;>
      simp [account_factory, hv, hs, hsub, he, SubaddressAccount.ctor, PrimaryAccount.ctor,
        Except.map]
  refine ⟨hb, he, ?_⟩
  intro r hr
  cases hc : Account.ofInfo E net_type addr_info args with
  | error e =>
    rw [he e hc] at hr
    simp at hr
  | ok b =>
    rw [hb b hc] at hr
    simp only [Except.ok.injEq] at hr
    subst hr
    refine ⟨_, rfl, ?_⟩
    cases hsub : addr_info.is_subaddress <;>
      simp [AccountObj.type, PrimaryAccount.init]

/-- C5 at two well-formed parsed addresses of the test double, one with the subaddress
flag set and one without. -/
theorem account_factory_info_dispatch_witness :
    testEnv.check_key (testInfo true).address.m_view_public_key = true
      ∧ testEnv.check_key (testInfo true).address.m_spend_public_key = true
      ∧ account_factory testEnv (FactoryArgs.info network_type.TESTNET (testInfo true)
            KeyArgs.none)
          = Except.ok (some (AccountObj.SubaddressAccount
              { nettype := network_type.TESTNET, addr_info := testInfo true }))
      ∧ account_factory testEnv (FactoryArgs.info network_type.TESTNET (testInfo false)
            KeyArgs.none)
          = Except.ok (some (PrimaryAccount.init
              { nettype := network_type.TESTNET, addr_info := testInfo false })) :=
  ⟨rfl, rfl,
    (account_factory_info_dispatch testEnv network_type.TESTNET (testInfo true)
      KeyArgs.none rfl rfl).1 _ rfl,
    (account_factory_info_dispatch testEnv network_type.TESTNET (testInfo false)
      KeyArgs.none rfl rfl).1 _ rfl⟩

/-! ## account_factory with a subaddress index -/

/-- C6: when the delegated `account_factory` call yields a `SubaddressAccount`,
`account_factory(idx, ...)` returns that account with its index set to `idx` exactly as
supplied and nothing else changed; when it yields a `PrimaryAccount`, the account is
returned as it is and its index is `(0, 0)`, whatever `idx` is. -/
theorem account_factory_idx_stamp (E : Env) (idx : subaddress_index) (fa : FactoryArgs)
    (a : AccountObj) (h : account_factory E fa = Except.ok (some a)) :
    (a.type = ADDRESS_TYPE.SUBADDRESS →
        account_factory E (FactoryArgs.idx idx fa)
            = Except.ok (some (AccountObj.SubaddressAccount
                { a.base with subaddr_idx := some idx }))
          ∧ (AccountObj.SubaddressAccount { a.base with subaddr_idx := some idx }).base.index
              = some idx)
    ∧ (a.type = ADDRESS_TYPE.PRIMARY →
        account_factory E (FactoryArgs.idx idx fa) = Except.ok (some a)
          ∧ a.base.index = some (subaddress_index.mk 0 0)) := by
  constructor
  · intro ht
    refine ⟨?_, rfl⟩
    cases a with
    | EmptyAccount b => simp [AccountObj.type] at ht
    | PrimaryAccount b m => simp [AccountObj.type] at ht
    | SubaddressAccount b =>
      simp [account_factory, h, AccountObj.is_subaddress, AccountObj.type,
        AccountObj.set_index, Account.set_index, AccountObj.base]
  · intro ht
    constructor
    · simp [account_factory, h, AccountObj.is_subaddress, ht]
    · obtain ⟨b, rfl⟩ := account_factory_primary E fa a h ht
      rfl

/-- C6 at index `(3, 7)` on the subaddress string `8A` and on the primary string `4A` of
the test double. -/
theorem account_factory_idx_stamp_witness :
    account_factory testEnv (FactoryArgs.str "8A" StrArgs.none)
        = Except.ok (some (AccountObj.SubaddressAccount testBase8A))
      ∧ account_factory testEnv
          (FactoryArgs.idx (subaddress_index.mk 3 7) (FactoryArgs.str "8A" StrArgs.none))
          = Except.ok (some (AccountObj.SubaddressAccount
              { testBase8A with subaddr_idx := some (subaddress_index.mk 3 7) }))
      ∧ account_factory testEnv
          (FactoryArgs.idx (subaddress_index.mk 3 7) (FactoryArgs.str "4A" StrArgs.none))
          = Except.ok (some (PrimaryAccount.init testBase4A))
      ∧ (PrimaryAccount.init testBase4A).base.index = some (subaddress_index.mk 0 0) :=
  ⟨rfl,
    ((account_factory_idx_stamp testEnv (subaddress_index.mk 3 7)
      (FactoryArgs.str "8A" StrArgs.none) (AccountObj.SubaddressAccount testBase8A) rfl).1
      rfl).1,
    ((account_factory_idx_stamp testEnv (subaddress_index.mk 3 7)
      (FactoryArgs.str "4A" StrArgs.none) (PrimaryAccount.init testBase4A) rfl).2 rfl).1,
    ((account_factory_idx_stamp testEnv (subaddress_index.mk 3 7)
      (FactoryArgs.str "4A" StrArgs.none) (PrimaryAccount.init testBase4A) rfl).2 rfl).2⟩

/-! ## Account::keys -/

/-- Once the bundle is cached, `keys()` returns the cached value and leaves the object
as it is, whatever the other members hold. -/
theorem Account.keys_cached (a : Account) (k : account_keys) (h : a.acc_keys = some k) :
    a.keys = Except.ok (some k, a) := by
  simp [Account.keys, h]

/-- With a view key and no cached bundle, `keys()` builds the bundle and caches it. -/
theorem Account.keys_first (a : Account) (v : secret_key) (hv : a.viewkey = some v)
    (hc : a.acc_keys = none) :
    a.keys = Except.ok
      (some { m_account_address := a.addr_info.address,
              m_view_secret_key := v,
              m_spend_secret_key := (a.spendkey).getD ({} : account_keys).m_spend_secret_key },
       { a with
         acc_keys :=
           some { m_account_address := a.addr_info.address,
                  m_view_secret_key := v,
                  m_spend_secret_key :=
                    (a.spendkey).getD ({} : account_keys).m_spend_secret_key } }) := by
  cases hs : a.spendkey <;> simp [Account.keys, hv, hc, hs, Account.ai]

/-- C7: on an account with a view secret, a first `keys()` call succeeds and caches a
bundle; a second call on the object the first one leaves returns the identical result and
leaves that object unchanged. It reads nothing but the cache: any account with the same
cached bundle gets the same value back, whatever its other members hold. -/
theorem keys_twice (a : Account) (v : secret_key) (hv : a.viewkey = some v) :
    ∃ (k : account_keys) (a1 : Account),
      a.keys = Except.ok (some k, a1)
        ∧ a1.acc_keys = some k
        ∧ a1.keys = Except.ok (some k, a1)
        ∧ (∀ a2 : Account, a2.acc_keys = a1.acc_keys → a2.keys = Except.ok (some k, a2)) := by
  cases hc : a.acc_keys with
  | some k =>
    refine ⟨k, a, Account.keys_cached a k hc, hc, Account.keys_cached a k hc, ?_⟩
    intro a2 h2
    exact Account.keys_cached a2 k (h2.trans hc)
  | none =>
    refine ⟨_, _, Account.keys_first a v hv hc, rfl, Account.keys_cached _ _ rfl, ?_⟩
    intro a2 h2
    exact Account.keys_cached a2 _ h2

/-- C7 at a view-only account. -/
theorem keys_twice_witness :
    testViewOnly.viewkey = some (secret_key.mk (List.replicate 32 5))
      ∧ ∃ (k : account_keys) (a1 : Account),
          testViewOnly.keys = Except.ok (some k, a1)
            ∧ a1.acc_keys = some k
            ∧ a1.keys = Except.ok (some k, a1)
            ∧ (∀ a2 : Account, a2.acc_keys = a1.acc_keys →
                a2.keys = Except.ok (some k, a2)) :=
  ⟨rfl, keys_twice testViewOnly _ rfl⟩

/-- C8: with no view secret and no cached bundle, `keys()` fails on its assertion (the
failure the specification calls `InvalidKeyState`) and returns nothing; with a view secret
it returns a bundle. -/
theorem keys_needs_viewkey (a : Account) :
    (a.viewkey = none → a.acc_keys = none → a.keys = Except.error Failure.assertion_failed)
    ∧ (∀ v, a.viewkey = some v →
        ∃ (k : account_keys) (a1 : Account), a.keys = Except.ok (some k, a1)) := by
  constructor
  · intro hv hc
    simp [Account.keys, hv, hc]
  · intro v hv
    cases hc : a.acc_keys with
    | some k => exact ⟨k, a, Account.keys_cached a k hc⟩
    | none => exact ⟨_, _, Account.keys_first a v hv hc⟩

/-- C8 at the default account (no secrets) and at a view-only account. -/
theorem keys_needs_viewkey_witness :
    ({} : Account).keys = Except.error Failure.assertion_failed
      ∧ ∃ (k : account_keys) (a1 : Account), testViewOnly.keys = Except.ok (some k, a1) :=
  ⟨(keys_needs_viewkey {}).1 rfl rfl, (keys_needs_viewkey testViewOnly).2 _ rfl⟩

/-- C9: on an account with a view secret and no cached bundle, `keys()` returns a bundle
whose account address is the public address of the account's address info and whose view
secret is the account's view secret; its spend secret is the account's spend secret when
there is one, and otherwise the value a default-constructed bundle has. -/
theorem keys_bundle_contents (a : Account) (v : secret_key) (hv : a.viewkey = some v)
    (hc : a.acc_keys = none) :
    ∃ (k : account_keys) (a1 : Account),
      a.keys = Except.ok (some k, a1)
        ∧ k.m_account_address = a.ai.address
        ∧ k.m_view_secret_key = v
        ∧ (∀ s, a.spendkey = some s → k.m_spend_secret_key = s)
        ∧ (a.spendkey = none →
            k.m_spend_secret_key = ({} : account_keys).m_spend_secret_key) := by
  refine ⟨_, _, Account.keys_first a v hv hc, rfl, rfl, ?_, ?_⟩
  · intro s hs
    simp [hs]
  · intro hs
    simp [hs]

/-- C9 at an account with both secrets and at a view-only account. -/
theorem keys_bundle_contents_witness :
    testFull.keys = Except.ok
        (some { m_account_address := (testInfo false).address,
                m_view_secret_key := secret_key.mk (List.replicate 32 5),
                m_spend_secret_key := secret_key.mk (List.replicate 32 6) },
         { testFull with
           acc_keys :=
             some { m_account_address := (testInfo false).address,
                    m_view_secret_key := secret_key.mk (List.replicate 32 5),
                    m_spend_secret_key := secret_key.mk (List.replicate 32 6) } })
      ∧ ∃ (k : account_keys) (a1 : Account),
          testViewOnly.keys = Except.ok (some k, a1)
            ∧ k.m_account_address = testViewOnly.ai.address
            ∧ k.m_view_secret_key = secret_key.mk (List.replicate 32 5)
            ∧ (∀ s, testViewOnly.spendkey = some s → k.m_spend_secret_key = s)
            ∧ (testViewOnly.spendkey = none →
                k.m_spend_secret_key = ({} : account_keys).m_spend_secret_key) :=
  ⟨rfl, keys_bundle_contents testViewOnly _ rfl rfl⟩

/-! ## EmptyAccount -/

/-- C10, as the code has it: no accessor of an `EmptyAccount` fails for being called on
one. The validity check returns `false`, `is_subaddress()` returns `false`, the hex
accessors return the empty string when the secret is absent, and `keys()` fails exactly
as on any other account, on its view-key assertion when there is neither a view key nor
a cached bundle. On the object `account_factory()` returns, the accessors return the
values of a default-constructed `Account`: default address info and public keys, no
secrets, empty hex strings, no index, `STAGENET`. -/
theorem empty_account_accessors (E : Env) (a : AccountObj)
    (h : a.type = ADDRESS_TYPE.NONE) :
    a.toBool = false
      ∧ a.is_subaddress = false
      ∧ (a.base.viewkey = none → a.base.vk2str E = "")
      ∧ (a.base.spendkey = none → a.base.sk2str E = "")
      ∧ (a.base.viewkey = none → a.base.acc_keys = none →
          a.keys = Except.error Failure.assertion_failed)
      ∧ (∀ v, a.base.viewkey = some v →
          ∃ (k : account_keys) (a1 : AccountObj),
            a.keys = Except.ok (some k, a1) ∧ a1.type = ADDRESS_TYPE.NONE)
      ∧ account_factory E FactoryArgs.nil = Except.ok (some EmptyAccount.default)
      ∧ EmptyAccount.default.type = ADDRESS_TYPE.NONE
      ∧ EmptyAccount.default.base.ai = {}
      ∧ EmptyAccount.default.base.ai2str E
          = E.get_account_address_as_str network_type.STAGENET false {}
      ∧ EmptyAccount.default.base.vk = none
      ∧ EmptyAccount.default.base.sk = none
      ∧ EmptyAccount.default.base.vk2str E = ""
      ∧ EmptyAccount.default.base.sk2str E = ""
      ∧ EmptyAccount.default.base.pvk = {}
      ∧ EmptyAccount.default.base.psk = {}
      ∧ EmptyAccount.default.base.index = none
      ∧ EmptyAccount.default.base.nt = network_type.STAGENET
      ∧ EmptyAccount.default.keys = Except.error Failure.assertion_failed := by
  cases a with
  | SubaddressAccount b => simp [AccountObj.type] at h
  | PrimaryAccount b m => simp [AccountObj.type] at h
  | EmptyAccount b =>
    refine ⟨rfl, rfl, ?_, ?_, ?_, ?_, rfl, rfl, rfl, rfl, rfl, rfl, rfl, rfl, rfl, rfl, rfl,
      rfl, rfl⟩
    · intro hv
      simp only [AccountObj.base] at hv
      simp [AccountObj.base, Account.vk2str, hv]
    · intro hs
      simp only [AccountObj.base] at hs
      simp [AccountObj.base, Account.sk2str, hs]
    · intro hv hc
      simp only [AccountObj.base] at hv hc
      simp [AccountObj.keys, Account.keys, hv, hc, Except.map]
    · intro v hv
      simp only [AccountObj.base] at hv
      cases hc : b.acc_keys with
      | some k =>
        exact ⟨k, AccountObj.EmptyAccount b, by
          simp [AccountObj.keys, Account.keys_cached b k hc, Except.map], rfl⟩
      | none =>
        have hk := Account.keys_first b v hv hc
        rw [show (AccountObj.EmptyAccount b).keys
          = (b.keys).map (fun r => (r.1, AccountObj.EmptyAccount r.2)) from rfl, hk]
        exact ⟨_, _, rfl, rfl⟩

/-- C10 at the object `account_factory()` returns. -/
theorem empty_account_accessors_witness :
    EmptyAccount.default.type = ADDRESS_TYPE.NONE
      ∧ EmptyAccount.default.toBool = false
      ∧ EmptyAccount.default.base.vk2str testEnv = ""
      ∧ EmptyAccount.default.keys = Except.error Failure.assertion_failed :=
  ⟨rfl, (empty_account_accessors testEnv EmptyAccount.default rfl).1,
    (empty_account_accessors testEnv EmptyAccount.default rfl).2.2.1 rfl,
    (empty_account_accessors testEnv EmptyAccount.default rfl).2.2.2.2.1 rfl rfl⟩

/-- C10 as stated fails: on the `EmptyAccount` that `account_factory()` returns the
accessors return values (the empty string for both hex forms, an absent index, an absent
view and spend secret, the default address info); and on an `EmptyAccount` built with a
view key, which the inherited constructors allow, `keys()` returns a bundle. -/
theorem empty_account_accessors_do_not_fail :
    account_factory testEnv FactoryArgs.nil = Except.ok (some EmptyAccount.default)
      ∧ EmptyAccount.default.type = ADDRESS_TYPE.NONE
      ∧ EmptyAccount.default.base.vk2str testEnv = ""
      ∧ EmptyAccount.default.base.sk2str testEnv = ""
      ∧ EmptyAccount.default.base.index = none
      ∧ EmptyAccount.default.base.vk = none
      ∧ EmptyAccount.default.base.sk = none
      ∧ EmptyAccount.default.base.ai = {}
      ∧ (AccountObj.EmptyAccount testViewOnly).type = ADDRESS_TYPE.NONE
      ∧ ¬ ∃ e, (AccountObj.EmptyAccount testViewOnly).keys = Except.error e := by
  refine ⟨rfl, rfl, rfl, rfl, rfl, rfl, rfl, rfl, rfl, ?_⟩
  rintro ⟨e, he⟩
  have hk : (AccountObj.EmptyAccount testViewOnly).keys
      = Except.ok
          (some { m_account_address := (testInfo false).address,
                  m_view_secret_key := secret_key.mk (List.replicate 32 5) },
           AccountObj.EmptyAccount
             { testViewOnly with
               acc_keys :=
                 some { m_account_address := (testInfo false).address,
                        m_view_secret_key := secret_key.mk (List.replicate 32 5) } }) := rfl
  rw [hk] at he
  simp at he

/-! ## parse_secret_key and the hex accessors -/

/-- C11: `parse_secret_key(hex)` fails, by throwing a `std::runtime_error` (the failure
the specification calls `MalformedKey`), if and only if `hex_to_pod` cannot decode `hex`
to a secret key; otherwise it returns exactly the decoded key. -/
theorem parse_secret_key_spec (E : Env) (hex : String) :
    ((∃ e, Account.parse_secret_key E hex = Except.error e) ↔ E.hex_to_pod hex = none)
      ∧ (E.hex_to_pod hex = none →
          Account.parse_secret_key E hex
            = Except.error (Failure.runtime_error ("Cant parse secret key: " ++ hex)))
      ∧ (∀ k, E.hex_to_pod hex = some k → Account.parse_secret_key E hex = Except.ok k) := by
  refine ⟨?_, ?_, ?_⟩
  · cases h : E.hex_to_pod hex with
    | none => simp [Account.parse_secret_key, h]
    | some k => simp [Account.parse_secret_key, h]
  · intro h
    simp [Account.parse_secret_key, h]
  · intro k h
    simp [Account.parse_secret_key, h]

/-- C11 at the string `ab`, which the codec of the test double rejects, and at a string
of 64 characters, which it decodes. -/
theorem parse_secret_key_spec_witness :
    testEnv.hex_to_pod "ab" = none
      ∧ Account.parse_secret_key testEnv "ab"
          = Except.error (Failure.runtime_error "Cant parse secret key: ab")
      ∧ testEnv.hex_to_pod
            "0000000000000000000000000000000000000000000000000000000000000000"
          = some (secret_key.mk (List.replicate 64 48))
      ∧ Account.parse_secret_key testEnv
            "0000000000000000000000000000000000000000000000000000000000000000"
          = Except.ok (secret_key.mk (List.replicate 64 48)) :=
  ⟨rfl, (parse_secret_key_spec testEnv "ab").2.1 rfl, rfl,
    (parse_secret_key_spec testEnv
      "0000000000000000000000000000000000000000000000000000000000000000").2.2 _ rfl⟩

/-- C12: `vk2str()` returns the empty string when the view secret is absent and the hex
encoding (`pod_to_hex`) of the view secret otherwise; `sk2str()` does the same for the
spend secret. -/
theorem secret_hex_forms (E : Env) (a : Account) :
    (a.viewkey = none → a.vk2str E = "")
      ∧ (∀ k, a.viewkey = some k → a.vk2str E = E.sk_to_hex k)
      ∧ (a.spendkey = none → a.sk2str E = "")
      ∧ (∀ k, a.spendkey = some k → a.sk2str E = E.sk_to_hex k) := by
  refine ⟨?_, ?_, ?_, ?_⟩
  · intro h
    simp [Account.vk2str, h]
  · intro k h
    simp [Account.vk2str, h]
  · intro h
    simp [Account.sk2str, h]
  · intro k h
    simp [Account.sk2str, h]

/-- C12 at a view-only account (view secret of 32 bytes `05`, no spend secret) and at an
account with both secrets. -/
theorem secret_hex_forms_witness :
    testViewOnly.vk2str testEnv
        = testEnv.sk_to_hex (secret_key.mk (List.replicate 32 5))
      ∧ testViewOnly.vk2str testEnv
          = "0505050505050505050505050505050505050505050505050505050505050505"
      ∧ testViewOnly.sk2str testEnv = ""
      ∧ testFull.sk2str testEnv
          = testEnv.sk_to_hex (secret_key.mk (List.replicate 32 6))
      ∧ ({} : Account).vk2str testEnv = "" :=
  ⟨(secret_hex_forms testEnv testViewOnly).2.1 _ rfl,
    by decide,
    (secret_hex_forms testEnv testViewOnly).2.2.1 rfl,
    (secret_hex_forms testEnv testFull).2.2.2 _ rfl,
    (secret_hex_forms testEnv {}).1 rfl⟩

/-! ## Populating the registry -/

/-- Looking a key up after `m[k] = v`: the new value at `k`, the old lookup elsewhere. -/
theorem subaddr_map_t.find_assign (m : subaddr_map_t) (k k1 : public_key)
    (v : subaddress_index) :
    subaddr_map_t.find (subaddr_map_t.assign m k v) k1
      = if k = k1 then some v else subaddr_map_t.find m k1 := by
  induction m with
  | nil => simp [subaddr_map_t.assign, subaddr_map_t.find]
  | cons e rest ih =>
    by_cases h1 : e.1 = k
    · by_cases h2 : k = k1
      · simp [subaddr_map_t.assign, subaddr_map_t.find, h1, h2]
      · have h3 : ¬ e.1 = k1 := fun h => h2 (h1 ▸ h)
        simp [subaddr_map_t.assign, subaddr_map_t.find, h1, h2, h3]
    · by_cases h2 : e.1 = k1
      · have h3 : ¬ k = k1 := fun h => h1 (h ▸ h2)
        have h4 : ¬ k1 = k := fun h => h3 h.symm
        simp [subaddr_map_t.assign, subaddr_map_t.find, h2, h3, h4]
      · simp [subaddr_map_t.assign, subaddr_map_t.find, h1, h2, ih]

/-- The two loops of `populateIndices` register the indices of `populateOrder` one after
the other. -/
theorem PrimaryAccount.populateIndices_eq_foldl
    (derive : secret_key → subaddress_index → public_key → public_key)
    (v : secret_key) (psk : public_key) (m : subaddr_map_t) (maxAccountId maxAddressId : Nat) :
    PrimaryAccount.populateIndices derive v psk m maxAccountId maxAddressId
      = (PrimaryAccount.populateOrder maxAccountId maxAddressId).foldl
          (fun m i => subaddr_map_t.assign m (derive v i psk) i) m := by
  unfold PrimaryAccount.populateIndices PrimaryAccount.populateOrder
  generalize List.range maxAccountId = accs
  induction accs generalizing m with
  | nil => rfl
  | cons a rest ih =>
    simp only [List.foldl_cons, List.flatMap_cons, List.foldl_append, List.foldl_map]
    rw [ih]
    rfl

/-- An index is registered exactly when both components are in range. -/
theorem PrimaryAccount.mem_populateOrder (maxAccountId maxAddressId : Nat)
    (i : subaddress_index) :
    i ∈ PrimaryAccount.populateOrder maxAccountId maxAddressId
      ↔ i.major < maxAccountId ∧ i.minor < maxAddressId := by
  cases i with
  | mk a b =>
    simp only [PrimaryAccount.populateOrder, List.mem_flatMap, List.mem_map, List.mem_range,
      subaddress_index.mk.injEq]
    constructor
    · rintro ⟨a1, ha1, b1, hb1, rfl, rfl⟩
      exact ⟨ha1, hb1⟩
    · rintro ⟨ha, hb⟩
      exact ⟨a, ha, b, hb, rfl, rfl⟩

/-- After a run of registrations whose keys are pairwise distinct, every registered index
is found under its own key. -/
theorem subaddr_map_t.find_foldl_assign (key : subaddress_index → public_key)
    (l : List subaddress_index) :
    ∀ (m : subaddr_map_t) (i : subaddress_index), i ∈ l →
      (∀ j ∈ l, key j = key i → j = i) →
      subaddr_map_t.find (l.foldl (fun m j => subaddr_map_t.assign m (key j) j) m) (key i)
        = some i := by
  induction l using List.reverseRecOn with
  | nil =>
    intro m i hi
    simp at hi
  | append_singleton l j ih =>
    intro m i hi hd
    rw [List.foldl_append, List.foldl_cons, List.foldl_nil, subaddr_map_t.find_assign]
    by_cases hk : key j = key i
    · have hj : j = i := hd j (by simp) hk
      simp [hj]
    · have hne : i ≠ j := fun h => hk (h ▸ rfl)
      have hil : i ∈ l := by
        rcases List.mem_append.mp hi with h | h
        · exact h
        · simp at h
          exact absurd h hne
      rw [if_neg hk]
      exact ih m i hil (fun j1 hj1 => hd j1 (List.mem_append_left _ hj1))

/-- C13: after `populateIndices(maxAccountId, maxAddressId)` on the registry of a primary
account with view secret `v` and public spend key `psk`, whatever the registry held
before, the lookup of the derived public spend key of `(accountId, addressId)` returns
`(accountId, addressId)` for every `accountId` in `[0, maxAccountId)` and `addressId` in
`[0, maxAddressId)`, given that the derivation gives distinct keys to distinct indices of
that range. A call of the declared entry point without an argument is the call with
bounds 50 and 200. -/
theorem populate_registers_range
    (derive : secret_key → subaddress_index → public_key → public_key)
    (v : secret_key) (psk : public_key) (m : subaddr_map_t) (maxAccountId maxAddressId : Nat)
    (hdistinct : ∀ i j : subaddress_index,
      i.major < maxAccountId → i.minor < maxAddressId →
      j.major < maxAccountId → j.minor < maxAddressId →
      derive v i psk = derive v j psk → i = j)
    (accountId addressId : Nat) (ha : accountId < maxAccountId)
    (hb : addressId < maxAddressId) :
    subaddr_map_t.find
        (PrimaryAccount.populateIndices derive v psk m maxAccountId maxAddressId)
        (derive v (subaddress_index.mk accountId addressId) psk)
      = some (subaddress_index.mk accountId addressId)
    ∧ PrimaryAccount.populate_subaddress_indices derive v psk m none
      = PrimaryAccount.populateIndices derive v psk m 50 200 := by
  refine ⟨?_, rfl⟩
  rw [PrimaryAccount.populateIndices_eq_foldl]
  apply subaddr_map_t.find_foldl_assign (fun i => derive v i psk)
  · exact (PrimaryAccount.mem_populateOrder _ _ _).mpr ⟨ha, hb⟩
  · intro j hj hk
    have hjr := (PrimaryAccount.mem_populateOrder _ _ _).mp hj
    exact hdistinct j _ hjr.1 hjr.2 ha hb hk

/-- The derivation of the test double gives distinct keys to distinct indices. -/
theorem testDerive_injective (v : secret_key) (psk : public_key) (i j : subaddress_index)
    (h : testDerive v i psk = testDerive v j psk) : i = j := by
  cases i
  cases j
  simp only [testDerive, public_key.mk.injEq, List.cons.injEq] at h
  simp [h.1, h.2.1]

/-- C13 at the test double: index `(1, 2)` after a population with bounds 2 and 3 of the
registry of a fresh primary account, and index `(49, 199)` after the population with the
bounds 50 and 200. -/
theorem populate_registers_range_witness :
    subaddr_map_t.find
        (PrimaryAccount.populateIndices testDerive testViewSecret testSpendKey
          [(testSpendKey, subaddress_index.mk 0 0)] 2 3)
        (testDerive testViewSecret (subaddress_index.mk 1 2) testSpendKey)
      = some (subaddress_index.mk 1 2)
    ∧ subaddr_map_t.find
        (PrimaryAccount.populateIndices testDerive testViewSecret testSpendKey
          [(testSpendKey, subaddress_index.mk 0 0)] 50 200)
        (testDerive testViewSecret (subaddress_index.mk 49 199) testSpendKey)
      = some (subaddress_index.mk 49 199) :=
  ⟨(populate_registers_range testDerive testViewSecret testSpendKey
      [(testSpendKey, subaddress_index.mk 0 0)] 2 3
      (fun i j _ _ _ _ h => testDerive_injective _ _ i j h) 1 2 (by decide) (by decide)).1,
    (populate_registers_range testDerive testViewSecret testSpendKey
      [(testSpendKey, subaddress_index.mk 0 0)] 50 200
      (fun i j _ _ _ _ h => testDerive_injective _ _ i j h) 49 199 (by decide) (by decide)).1⟩

/-! ## The variant of a returned account -/

/-- What the factory returns, by the shape of its argument list: the default-constructed
`EmptyAccount` when the list ends in the empty argument list, and otherwise an object of
type `PRIMARY` or `SUBADDRESS`. -/
theorem account_factory_returned (E : Env) (fa : FactoryArgs) :
    ∀ a : AccountObj, account_factory E fa = Except.ok (some a) →
      (fa.endsInNil = true ∧ a = EmptyAccount.default)
        ∨ (fa.endsInNil = false
            ∧ (a.type = ADDRESS_TYPE.PRIMARY ∨ a.type = ADDRESS_TYPE.SUBADDRESS)) := by
  induction fa with
  | nil =>
    intro a h
    simp only [account_factory, Except.ok.injEq, Option.some.injEq] at h
    exact Or.inl ⟨rfl, h.symm⟩
  | str addr_str args =>
    intro a h
    refine Or.inr ⟨rfl, ?_⟩
    simp only [account_factory] at h
    split_ifs at h with h1 h2 h3
    · simp at h
    · obtain ⟨x, hx, hxa⟩ := except_map_eq_ok _ _ _ h
      obtain ⟨b, _, hb⟩ := except_map_eq_ok _ _ _ hx
      simp only [Option.some.injEq] at hxa
      rw [← hxa, ← hb]
      exact Or.inr rfl
    · obtain ⟨x, hx, hxa⟩ := except_map_eq_ok _ _ _ h
      obtain ⟨b, _, hb⟩ := except_map_eq_ok _ _ _ hx
      simp only [Option.some.injEq] at hxa
      rw [← hxa, ← hb]
      exact Or.inl rfl
    · simp at h
  | info net_type addr_info args =>
    intro a h
    refine Or.inr ⟨rfl, ?_⟩
    simp only [account_factory] at h
    split_ifs at h with h1 h2
    · simp at h
    · obtain ⟨x, hx, hxa⟩ := except_map_eq_ok _ _ _ h
      obtain ⟨b, _, hb⟩ := except_map_eq_ok _ _ _ hx
      simp only [Option.some.injEq] at hxa
      rw [← hxa, ← hb]
      exact Or.inr rfl
    · obtain ⟨x, hx, hxa⟩ := except_map_eq_ok _ _ _ h
      obtain ⟨b, _, hb⟩ := except_map_eq_ok _ _ _ hx
      simp only [Option.some.injEq] at hxa
      rw [← hxa, ← hb]
      exact Or.inl rfl
  | idx idx args ih =>
    intro a h
    simp only [account_factory] at h
    cases hr : account_factory E args with
    | error e => simp [hr] at h
    | ok o =>
      cases o with
      | none => simp [hr] at h
      | some acc =>
        simp only [hr] at h
        split_ifs at h with hs
        · simp only [Except.ok.injEq, Option.some.injEq] at h
          subst h
          have hsub : acc.type = ADDRESS_TYPE.SUBADDRESS := by
            simpa [AccountObj.is_subaddress] using hs
          have hty : (acc.set_index idx).type = ADDRESS_TYPE.SUBADDRESS := by
            cases acc <;> simp [AccountObj.type, AccountObj.set_index] at hsub ⊢
          rcases ih acc hr with ⟨_, hacc⟩ | ⟨hn, _⟩
          · rw [hacc] at hsub
            simp [EmptyAccount.default, AccountObj.type] at hsub
          · exact Or.inr ⟨hn, Or.inr hty⟩
        · simp only [Except.ok.injEq, Option.some.injEq] at h
          subst h
          exact ih acc hr

/-- C14, as the code has it: an account object returned by the address-string factory or
the address-info factory, or by the index-stamping factory over one of those (through any
number of index-stamping calls), has type `PRIMARY` or `SUBADDRESS` and converts to
`true`. An object of type `NONE` is returned exactly when the argument list ends in the
empty one: by `account_factory()`, and by the index-stamping overload over it, which
passes the default-constructed `EmptyAccount` on. -/
theorem account_factory_returned_variant (E : Env) (fa : FactoryArgs) (a : AccountObj)
    (h : account_factory E fa = Except.ok (some a)) :
    (fa.endsInNil = false →
        (a.type = ADDRESS_TYPE.PRIMARY ∨ a.type = ADDRESS_TYPE.SUBADDRESS) ∧ a.toBool = true)
    ∧ (fa.endsInNil = true →
        a = EmptyAccount.default ∧ a.type = ADDRESS_TYPE.NONE ∧ a.toBool = false)
    ∧ (a.type = ADDRESS_TYPE.NONE ↔ fa.endsInNil = true) := by
  rcases account_factory_returned E fa a h with ⟨hn, ha⟩ | ⟨hn, ht⟩
  · subst ha
    refine ⟨fun hf => ?_, fun _ => ⟨rfl, rfl, rfl⟩, fun _ => hn, fun _ => rfl⟩
    rw [hn] at hf
    exact absurd hf (by decide)
  · have hne : a.type ≠ ADDRESS_TYPE.NONE := by
      rcases ht with ht | ht <;> simp [ht]
    refine ⟨fun _ => ⟨ht, by simp [AccountObj.toBool, hne]⟩, fun hf => ?_,
      fun h0 => absurd h0 hne, fun hf => ?_⟩
    · rw [hn] at hf
      exact absurd hf (by decide)
    · rw [hn] at hf
      exact absurd hf (by decide)

/-- C14 at the test double: the string factory, the info factory, the index-stamping
factory over the string factory, and the index-stamping factory over no arguments. -/
theorem account_factory_returned_variant_witness :
    (PrimaryAccount.init testBase4A).toBool = true
      ∧ (AccountObj.SubaddressAccount
          { testBase8A with subaddr_idx := some (subaddress_index.mk 3 7) }).toBool = true
      ∧ ((PrimaryAccount.init
            { nettype := network_type.TESTNET, addr_info := testInfo false }).type
          = ADDRESS_TYPE.PRIMARY
        ∨ (PrimaryAccount.init
            { nettype := network_type.TESTNET, addr_info := testInfo false }).type
          = ADDRESS_TYPE.SUBADDRESS)
      ∧ EmptyAccount.default.toBool = false :=
  ⟨((account_factory_returned_variant testEnv (FactoryArgs.str "4A" StrArgs.none)
      (PrimaryAccount.init testBase4A) rfl).1 rfl).2,
    ((account_factory_returned_variant testEnv
      (FactoryArgs.idx (subaddress_index.mk 3 7) (FactoryArgs.str "8A" StrArgs.none))
      (AccountObj.SubaddressAccount
        { testBase8A with subaddr_idx := some (subaddress_index.mk 3 7) }) rfl).1 rfl).2,
    ((account_factory_returned_variant testEnv
      (FactoryArgs.info network_type.TESTNET (testInfo false) KeyArgs.none)
      (PrimaryAccount.init { nettype := network_type.TESTNET, addr_info := testInfo false })
      rfl).1 rfl).1,
    ((account_factory_returned_variant testEnv
      (FactoryArgs.idx (subaddress_index.mk 3 7) FactoryArgs.nil)
      EmptyAccount.default rfl).2.1 rfl).2.2⟩

/-- C14 as stated fails: `account_factory(idx)`, the index-stamping overload with no
further arguments, delegates to `account_factory()` and returns its `EmptyAccount`, a
non-null handle to an object of type `NONE` that converts to `false`. -/
theorem account_factory_idx_nil_is_empty :
    ∃ a : AccountObj,
      account_factory testEnv (FactoryArgs.idx (subaddress_index.mk 1 2) FactoryArgs.nil)
          = Except.ok (some a)
        ∧ a.type = ADDRESS_TYPE.NONE
        ∧ a.toBool = false
        ∧ ¬ (a.type = ADDRESS_TYPE.PRIMARY ∨ a.type = ADDRESS_TYPE.SUBADDRESS) :=
  ⟨EmptyAccount.default, rfl, rfl, rfl, by decide⟩

/-! ## Frame conditions -/

/-- C15: `set_index(idx)` sets the index to `idx` on every variant, `PRIMARY` included,
and changes nothing else: the type, network type, address info, secrets, cached bundle and
registry are as before. So on a primary account whose registry maps its own public spend
key to `(0, 0)`, as every freshly constructed one does, `index()` returns `idx` after the
call while the registry still maps that key to `(0, 0)`. -/
theorem set_index_frame (a : AccountObj) (idx : subaddress_index) :
    (a.set_index idx).base.index = some idx
      ∧ (a.set_index idx).type = a.type
      ∧ (a.set_index idx).base.nettype = a.base.nettype
      ∧ (a.set_index idx).base.addr_info = a.base.addr_info
      ∧ (a.set_index idx).base.viewkey = a.base.viewkey
      ∧ (a.set_index idx).base.spendkey = a.base.spendkey
      ∧ (a.set_index idx).base.acc_keys = a.base.acc_keys
      ∧ (a.set_index idx).registry = a.registry
      ∧ (∀ m, a.type = ADDRESS_TYPE.PRIMARY → a.registry = some m →
          subaddr_map_t.find m a.base.psk = some (subaddress_index.mk 0 0) →
          idx ≠ subaddress_index.mk 0 0 →
          (a.set_index idx).base.index = some idx
            ∧ (a.set_index idx).base.index ≠ some (subaddress_index.mk 0 0)
            ∧ (a.set_index idx).registry = some m
            ∧ subaddr_map_t.find m (a.set_index idx).base.psk
                = some (subaddress_index.mk 0 0))
      ∧ (∀ b, (PrimaryAccount.init b).set_index idx
          = AccountObj.PrimaryAccount { b with subaddr_idx := some idx }
              [(b.psk, subaddress_index.mk 0 0)]) := by
  have hframe : (a.set_index idx).base.index = some idx
      ∧ (a.set_index idx).type = a.type
      ∧ (a.set_index idx).base.nettype = a.base.nettype
      ∧ (a.set_index idx).base.addr_info = a.base.addr_info
      ∧ (a.set_index idx).base.viewkey = a.base.viewkey
      ∧ (a.set_index idx).base.spendkey = a.base.spendkey
      ∧ (a.set_index idx).base.acc_keys = a.base.acc_keys
      ∧ (a.set_index idx).registry = a.registry := by
    cases a <;> exact ⟨rfl, rfl, rfl, rfl, rfl, rfl, rfl, rfl⟩
  obtain ⟨h1, h2, h3, h4, h5, h6, h7, h8⟩ := hframe
  refine ⟨h1, h2, h3, h4, h5, h6, h7, h8, ?_, fun b => rfl⟩
  intro m _ hm hfind hidx
  refine ⟨h1, ?_, h8.trans hm, ?_⟩
  · rw [h1]
    intro h
    exact hidx (Option.some.inj h)
  · have hpsk : (a.set_index idx).base.psk = a.base.psk := by
      simp [Account.psk, h4]
    rw [hpsk]
    exact hfind

/-- C15 at the primary account the factory of the test double builds from `4A`, with
index `(3, 7)`. -/
theorem set_index_frame_witness :
    ((PrimaryAccount.init testBase4A).set_index (subaddress_index.mk 3 7)).base.index
        = some (subaddress_index.mk 3 7)
      ∧ ((PrimaryAccount.init testBase4A).set_index (subaddress_index.mk 3 7)).registry
          = some [(public_key.mk [52, 65], subaddress_index.mk 0 0)]
      ∧ subaddr_map_t.find [(public_key.mk [52, 65], subaddress_index.mk 0 0)]
          ((PrimaryAccount.init testBase4A).set_index (subaddress_index.mk 3 7)).base.psk
          = some (subaddress_index.mk 0 0) :=
  ⟨((set_index_frame (PrimaryAccount.init testBase4A) (subaddress_index.mk 3 7)).2.2.2.2.2.2.2.2.1
      [(public_key.mk [52, 65], subaddress_index.mk 0 0)] rfl rfl rfl (by decide)).1,
    ((set_index_frame (PrimaryAccount.init testBase4A) (subaddress_index.mk 3 7)).2.2.2.2.2.2.2.2.1
      [(public_key.mk [52, 65], subaddress_index.mk 0 0)] rfl rfl rfl (by decide)).2.2.1,
    ((set_index_frame (PrimaryAccount.init testBase4A) (subaddress_index.mk 3 7)).2.2.2.2.2.2.2.2.1
      [(public_key.mk [52, 65], subaddress_index.mk 0 0)] rfl rfl rfl (by decide)).2.2.2⟩

/-- C16: on an account with a view secret, `keys()` returns a bundle and leaves the
network type, address info, view secret, spend secret and index as they were; the cached
bundle is present afterwards. When the cache was absent the object after the call differs
from the one before in the cache alone; when it was present the object is unchanged and
the bundle returned is the cached one. -/
theorem keys_frame (a : Account) (v : secret_key) (hv : a.viewkey = some v) :
    ∃ (k : account_keys) (a1 : Account),
      a.keys = Except.ok (some k, a1)
        ∧ a1.nettype = a.nettype
        ∧ a1.addr_info = a.addr_info
        ∧ a1.viewkey = a.viewkey
        ∧ a1.spendkey = a.spendkey
        ∧ a1.subaddr_idx = a.subaddr_idx
        ∧ a1.acc_keys = some k
        ∧ (a.acc_keys = none → a1 = { a with acc_keys := some k })
        ∧ (∀ k0, a.acc_keys = some k0 → k = k0 ∧ a1 = a) := by
  cases hc : a.acc_keys with
  | some k0 =>
    refine ⟨k0, a, Account.keys_cached a k0 hc, rfl, rfl, rfl, rfl, rfl, hc, ?_, ?_⟩
    · intro h
      simp at h
    · intro k1 h1
      exact ⟨Option.some.inj h1, rfl⟩
  | none =>
    refine ⟨_, _, Account.keys_first a v hv hc, rfl, rfl, rfl, rfl, rfl, rfl, ?_, ?_⟩
    · intro _
      rfl
    · intro k0 h0
      simp at h0

/-- C16 at a view-only account with no cached bundle. -/
theorem keys_frame_witness :
    testViewOnly.viewkey = some (secret_key.mk (List.replicate 32 5))
      ∧ ∃ (k : account_keys) (a1 : Account),
          testViewOnly.keys = Except.ok (some k, a1)
            ∧ a1.nettype = testViewOnly.nettype
            ∧ a1.addr_info = testViewOnly.addr_info
            ∧ a1.viewkey = testViewOnly.viewkey
            ∧ a1.spendkey = testViewOnly.spendkey
            ∧ a1.subaddr_idx = testViewOnly.subaddr_idx
            ∧ a1.acc_keys = some k
            ∧ (testViewOnly.acc_keys = none → a1 = { testViewOnly with acc_keys := some k })
            ∧ (∀ k0, testViewOnly.acc_keys = some k0 → k = k0 ∧ a1 = testViewOnly) :=
  ⟨rfl, keys_frame testViewOnly _ rfl⟩

end xmreg
